import Mathlib

/-!
# mmap_allocator.h

A shallow embedding of `mmap_allocator<T>` and `mmappable_vector<T, A>`.

* Member functions become functions that take the object and the process state
  (`World`) and return the updated object and process state.
* The file pool (`the_pool`), the private `mmapped_file` handle and the base
  class `std::allocator<T>` are declared in headers that are not part of the
  translated file.  Their behaviour is a parameter (`Backend`): every function
  of the embedding is stated for an arbitrary backend.
* Every call that leaves the translated file is appended to `World.calls`, so
  that "which request was issued, and how often" is a property of the run.
* `size_t` arithmetic is arithmetic modulo `2 ^ size_t_bits`.
-/

namespace mmap_allocator_namespace

/-- Modelled from the spec: the access-mode enumeration of `mmap_access_mode.h`,
which is absent.  The spec lists DEFAULT_HEAP, READ_ONLY, READ_WRITE and
COPY_ON_WRITE; the source spells the heap mode `DEFAULT_STL_ALLOCATOR`. -/
inductive access_mode where
  | DEFAULT_STL_ALLOCATOR
  | READ_ONLY
  | READ_WRITE
  | COPY_ON_WRITE
  deriving DecidableEq, Repr

/-- Compile-time facts the header depends on but does not define: the width of
`size_t`, `sizeof(T)`, `std::vector<T, A>::max_size()` and the three flag
constants of `mmap_access_mode.h`. -/
structure Target where
  size_t_bits : Nat
  sizeof_T : Nat
  max_size : Nat
  MAP_WHOLE_FILE : Nat
  ALLOW_REMAP : Nat
  BYPASS_FILE_POOL : Nat
  deriving DecidableEq, Repr

/-- An address.  `T*` and `void*` values are addresses; `NULL` is `0`. -/
abbrev pointer := Nat

/-- The null pointer. -/
def NULL : pointer := 0

/-- The exceptions that can leave the translated functions. -/
inductive Exn where
  | mmap_allocator_exception (what : String)
  | length_error (what : String)
  | bad_alloc
  deriving DecidableEq, Repr

/-- Result of a call: a returned value or a thrown exception. -/
inductive Outcome (α : Type) where
  | returned (value : α)
  | thrown (e : Exn)
  deriving DecidableEq, Repr

/-- The exception `allocate` throws when the mapping request returned `NULL`. -/
def MappingError : Exn :=
  Exn.mmap_allocator_exception "Couldn't mmap file, mmap_file returned NULL"

/-- The exception `mmap_file` throws on a vector that already has elements. -/
def AlreadyMappedError : Exn :=
  Exn.mmap_allocator_exception "Remapping currently not implemented."

/-- A call that leaves the translated file, with its arguments. -/
inductive Call where
  | pool_mmap_file (filename : String) (mode : access_mode) (offset : Int) (length : Nat)
      (map_whole_file allow_remap : Bool)
  | pool_munmap_file (filename : String) (mode : access_mode) (offset : Int) (length : Nat)
  | open_and_mmap_file (filename : String) (mode : access_mode) (offset : Int) (length : Nat)
      (map_whole_file allow_remap : Bool)
  | munmap_and_close_file
  | std_allocate (n : Nat)
  | std_deallocate (p : pointer) (n : Nat)
  deriving DecidableEq, Repr

/-- A line written to the diagnostic stream when the verbosity is positive. -/
inductive Diag where
  | alloc_bytes (bytes : Nat)
  | pointer_is (p : pointer)
  | dealloc_bytes (bytes : Nat) (p : pointer)
  deriving DecidableEq, Repr

/-- The collaborators declared outside the translated file, as state
transformers: the private handle (`mmapped_file`), the shared pool
(`the_pool`) and the heap behind `std::allocator<T>`.  A mapping request
returns a pointer, `NULL` when it could not map.  `std_allocate` returns
`none` when `std::allocator<T>::allocate` throws `std::bad_alloc`. -/
structure Backend (Pool Handle Heap : Type) where
  mmapped_file : Handle
  open_and_mmap_file :
    Handle → String → access_mode → Int → Nat → Bool → Bool → pointer × Handle
  munmap_and_close_file : Handle → Handle
  pool_mmap_file :
    Pool → String → access_mode → Int → Nat → Bool → Bool → pointer × Pool
  pool_munmap_file : Pool → String → access_mode → Int → Nat → Pool
  std_allocate : Heap → Nat → Option pointer × Heap
  std_deallocate : Heap → pointer → Nat → Heap

/-- Process-wide state: the shared pool, the heap, the verbosity level, the
diagnostic stream and the record of calls issued so far. -/
structure World (Pool Heap : Type) where
  the_pool : Pool
  heap : Heap
  verbosity : Int
  stderr : List Diag
  calls : List Call

/-- The data members of `mmap_allocator<T>`. -/
structure mmap_allocator (Handle : Type) where
  filename : String
  offset : Int
  access_mode : access_mode
  map_whole_file : Bool
  allow_remap : Bool
  bypass_file_pool : Bool
  private_file : Handle

/-- The state after `allocate`: what it returned or threw, the allocator and
the process state. -/
structure AllocStep (Pool Handle Heap : Type) where
  result : Outcome pointer
  alloc : mmap_allocator Handle
  world : World Pool Heap

/-- The state after `deallocate`: the allocator and the process state. -/
structure DeallocStep (Pool Handle Heap : Type) where
  alloc : mmap_allocator Handle
  world : World Pool Heap

variable {Pool Handle Heap : Type}

/-- The `size_t` product `n*sizeof(T)`. -/
def byte_length (tgt : Target) (n : Nat) : Nat :=
  (n * tgt.sizeof_T) % 2 ^ tgt.size_t_bits

/-- Line written by `fprintf(stderr, ...)` under `get_verbosity() > 0`. -/
def trace_line (w : World Pool Heap) (d : Diag) : World Pool Heap :=
  if w.verbosity > 0 then { w with stderr := w.stderr ++ [d] } else w

/-- Record of one outgoing call. -/
def record (w : World Pool Heap) (c : Call) : World Pool Heap :=
  { w with calls := w.calls ++ [c] }

/-- The member function `mmap_allocator::allocate(n, hint)`. -/
def allocate (tgt : Target) (be : Backend Pool Handle Heap)
    (a : mmap_allocator Handle) (w : World Pool Heap) (n : Nat) :
    AllocStep Pool Handle Heap :=
  let w := trace_line w (Diag.alloc_bytes (byte_length tgt n))
  if a.access_mode = access_mode.DEFAULT_STL_ALLOCATOR then
    let r := be.std_allocate w.heap n
    let w := record { w with heap := r.2 } (Call.std_allocate n)
    match r.1 with
    | some p => ⟨Outcome.returned p, a, w⟩
    | none => ⟨Outcome.thrown Exn.bad_alloc, a, w⟩
  else
    let s : pointer × mmap_allocator Handle × World Pool Heap :=
      if a.bypass_file_pool then
        let r := be.open_and_mmap_file a.private_file a.filename a.access_mode a.offset
          (byte_length tgt n) a.map_whole_file a.allow_remap
        (r.1, { a with private_file := r.2 },
          record w (Call.open_and_mmap_file a.filename a.access_mode a.offset
            (byte_length tgt n) a.map_whole_file a.allow_remap))
      else
        let r := be.pool_mmap_file w.the_pool a.filename a.access_mode a.offset
          (byte_length tgt n) a.map_whole_file a.allow_remap
        (r.1, a,
          record { w with the_pool := r.2 } (Call.pool_mmap_file a.filename a.access_mode
            a.offset (byte_length tgt n) a.map_whole_file a.allow_remap))
    let the_pointer := s.1
    if the_pointer = NULL then
      ⟨Outcome.thrown MappingError, s.2.1, s.2.2⟩
    else
      ⟨Outcome.returned the_pointer, s.2.1, trace_line s.2.2 (Diag.pointer_is the_pointer)⟩

/-- The member function `mmap_allocator::deallocate(p, n)`. -/
def deallocate (tgt : Target) (be : Backend Pool Handle Heap)
    (a : mmap_allocator Handle) (w : World Pool Heap) (p : pointer) (n : Nat) :
    DeallocStep Pool Handle Heap :=
  let w := trace_line w (Diag.dealloc_bytes (byte_length tgt n) p)
  if a.access_mode = access_mode.DEFAULT_STL_ALLOCATOR then
    ⟨a, record { w with heap := be.std_deallocate w.heap p n } (Call.std_deallocate p n)⟩
  else
    if a.bypass_file_pool then
      ⟨{ a with private_file := be.munmap_and_close_file a.private_file },
        record w Call.munmap_and_close_file⟩
    else
      let pool := be.pool_munmap_file w.the_pool a.filename a.access_mode a.offset
        (byte_length tgt n)
      ⟨a, record { w with the_pool := pool }
        (Call.pool_munmap_file a.filename a.access_mode a.offset (byte_length tgt n))⟩

/-- The default constructor `mmap_allocator()`. -/
def mmap_allocator_default (be : Backend Pool Handle Heap) : mmap_allocator Handle :=
  { filename := ""
    offset := 0
    access_mode := access_mode.DEFAULT_STL_ALLOCATOR
    map_whole_file := false
    allow_remap := false
    bypass_file_pool := false
    private_file := be.mmapped_file }

/-- The converting constructor `mmap_allocator(const std::allocator<T> &)`. -/
def mmap_allocator_from_std (be : Backend Pool Handle Heap) : mmap_allocator Handle :=
  { filename := ""
    offset := 0
    access_mode := access_mode.DEFAULT_STL_ALLOCATOR
    map_whole_file := false
    allow_remap := false
    bypass_file_pool := false
    private_file := be.mmapped_file }

/-- The copy constructor `mmap_allocator(const mmap_allocator &a)`: every
member is initialised from the member of `a`, the handle by the member-wise
copy of `mmapped_file`. -/
def mmap_allocator_copy (a : mmap_allocator Handle) : mmap_allocator Handle :=
  { filename := a.filename
    offset := a.offset
    access_mode := a.access_mode
    map_whole_file := a.map_whole_file
    allow_remap := a.allow_remap
    bypass_file_pool := a.bypass_file_pool
    private_file := a.private_file }

/-- The C++ expression `flags | FLAG != 0` converted to `bool`: the comparison
binds tighter than the bitwise or, so it is `flags | (FLAG != 0)`.  `flags` is
the bit pattern of the `int` argument. -/
def flag_init_ctor (flags FLAG : Nat) : Bool :=
  (flags ||| (if FLAG != 0 then 1 else 0)) != 0

/-- The C++ expression `(flags | FLAG) != 0`. -/
def flag_init_mmap_file (flags FLAG : Nat) : Bool :=
  (flags ||| FLAG) != 0

/-- The constructor `mmap_allocator(filename, access_mode, offset, flags)`. -/
def mmap_allocator_from_file (tgt : Target) (be : Backend Pool Handle Heap)
    (filename_param : String) (access_mode_param : access_mode) (offset_param : Int)
    (flags : Nat) : mmap_allocator Handle :=
  { filename := filename_param
    offset := offset_param
    access_mode := access_mode_param
    map_whole_file := flag_init_ctor flags tgt.MAP_WHOLE_FILE
    allow_remap := flag_init_ctor flags tgt.ALLOW_REMAP
    bypass_file_pool := flag_init_ctor flags tgt.BYPASS_FILE_POOL
    private_file := be.mmapped_file }

/-- The data members of `mmappable_vector<T, A>`: the allocator held by the
`std::vector<T, A>` base (`_M_get_Tp_allocator()`) and the three storage
pointers of `_M_impl`.  The contents of the storage are not part of the
model. -/
structure mmappable_vector (Handle : Type) where
  the_allocator : mmap_allocator Handle
  _M_start : pointer
  _M_finish : pointer
  _M_end_of_storage : pointer

/-- The state after a member function of the vector: whether it returned or
threw, the vector and the process state. -/
structure VecStep (Pool Handle Heap : Type) where
  result : Outcome Unit
  vec : mmappable_vector Handle
  world : World Pool Heap

/-- The pointer sum `p + n` on `T*`. -/
def ptr_add (tgt : Target) (p : pointer) (n : Nat) : pointer :=
  p + n * tgt.sizeof_T

/-- The pointer difference `q - p` on `T*`. -/
def ptr_diff (tgt : Target) (q p : pointer) : Nat :=
  (q - p) / tgt.sizeof_T

/-- The library function `std::vector::size()`: `_M_finish - _M_start`. -/
def size (tgt : Target) (v : mmappable_vector Handle) : Nat :=
  ptr_diff tgt v._M_finish v._M_start

/-- The library function `std::vector::capacity()`:
`_M_end_of_storage - _M_start`. -/
def capacity (tgt : Target) (v : mmappable_vector Handle) : Nat :=
  ptr_diff tgt v._M_end_of_storage v._M_start

/-- The library function `_Vector_base::_M_allocate(n)` of libstdc++:
`n != 0 ? _M_impl.allocate(n) : 0`. -/
def _M_allocate (tgt : Target) (be : Backend Pool Handle Heap)
    (a : mmap_allocator Handle) (w : World Pool Heap) (n : Nat) :
    AllocStep Pool Handle Heap :=
  if n != 0 then allocate tgt be a w n else ⟨Outcome.returned NULL, a, w⟩

/-- The library function `_Vector_base::_M_deallocate(p, n)` of libstdc++:
`if (p) _M_impl.deallocate(p, n)`. -/
def _M_deallocate (tgt : Target) (be : Backend Pool Handle Heap)
    (a : mmap_allocator Handle) (w : World Pool Heap) (p : pointer) (n : Nat) :
    DeallocStep Pool Handle Heap :=
  if p != NULL then deallocate tgt be a w p n else ⟨a, w⟩

/-- The library function `std::vector::reserve(n)` of libstdc++ (the header
requires `__GNUC__`): `length_error` above `max_size()`; when the capacity is
too small, new storage from `_M_allocate(n)`, the old storage handed to
`_M_deallocate`, and the three pointers moved. -/
def reserve (tgt : Target) (be : Backend Pool Handle Heap)
    (v : mmappable_vector Handle) (w : World Pool Heap) (n : Nat) :
    VecStep Pool Handle Heap :=
  if n > tgt.max_size then
    ⟨Outcome.thrown (Exn.length_error "vector::reserve"), v, w⟩
  else if capacity tgt v < n then
    let old_size := size tgt v
    let r := _M_allocate tgt be v.the_allocator w n
    match r.result with
    | Outcome.thrown e => ⟨Outcome.thrown e, { v with the_allocator := r.alloc }, r.world⟩
    | Outcome.returned tmp =>
      let d := _M_deallocate tgt be r.alloc r.world v._M_start (capacity tgt v)
      ⟨Outcome.returned (),
        { the_allocator := d.alloc
          _M_start := tmp
          _M_finish := ptr_add tgt tmp old_size
          _M_end_of_storage := ptr_add tgt tmp n },
        d.world⟩
  else
    ⟨Outcome.returned (), v, w⟩

/-- The private member `_M_set_finish(n)`: `_M_finish = _M_start + n`. -/
def _M_set_finish (tgt : Target) (v : mmappable_vector Handle) (n : Nat) :
    mmappable_vector Handle :=
  { v with _M_finish := ptr_add tgt v._M_start n }

/-- The overload `mmap_file(size_t n)`: `reserve(n)`, then `_M_set_finish(n)`. -/
def mmap_file_n (tgt : Target) (be : Backend Pool Handle Heap)
    (v : mmappable_vector Handle) (w : World Pool Heap) (n : Nat) :
    VecStep Pool Handle Heap :=
  let r := reserve tgt be v w n
  match r.result with
  | Outcome.thrown e => ⟨Outcome.thrown e, r.vec, r.world⟩
  | Outcome.returned _ => ⟨Outcome.returned (), _M_set_finish tgt r.vec n, r.world⟩

/-- The overload `mmap_file(filename, access_mode, offset, n, flags)`. -/
def mmap_file (tgt : Target) (be : Backend Pool Handle Heap)
    (v : mmappable_vector Handle) (w : World Pool Heap)
    (filename : String) (mode : access_mode) (offset : Int) (n : Nat) (flags : Nat) :
    VecStep Pool Handle Heap :=
  if size tgt v > 0 then
    ⟨Outcome.thrown AlreadyMappedError, v, w⟩
  else
    let the_allocator : mmap_allocator Handle :=
      { v.the_allocator with
        filename := filename
        offset := offset
        access_mode := mode
        map_whole_file := flag_init_mmap_file flags tgt.MAP_WHOLE_FILE
        allow_remap := flag_init_mmap_file flags tgt.ALLOW_REMAP
        bypass_file_pool := flag_init_mmap_file flags tgt.BYPASS_FILE_POOL }
    mmap_file_n tgt be { v with the_allocator := the_allocator } w n

/-- The member function `munmap_file()`. -/
def munmap_file (tgt : Target) (be : Backend Pool Handle Heap)
    (v : mmappable_vector Handle) (w : World Pool Heap) :
    VecStep Pool Handle Heap :=
  let n := size tgt v
  let d := _M_deallocate tgt be v.the_allocator w v._M_start n
  ⟨Outcome.returned (),
    { the_allocator := d.alloc, _M_start := NULL, _M_finish := NULL, _M_end_of_storage := NULL },
    d.world⟩

/-- The constructor `mmappable_vector()`: a default allocator, no storage. -/
def mmappable_vector_default (be : Backend Pool Handle Heap) : mmappable_vector Handle :=
  { the_allocator := mmap_allocator_default be
    _M_start := NULL
    _M_finish := NULL
    _M_end_of_storage := NULL }

/-- The constructor `mmappable_vector(A alloc)`: the vector holds a copy of
`alloc` (made by the copy constructor) and no storage. -/
def mmappable_vector_from_alloc (alloc : mmap_allocator Handle) : mmappable_vector Handle :=
  { the_allocator := mmap_allocator_copy alloc
    _M_start := NULL
    _M_finish := NULL
    _M_end_of_storage := NULL }

/-- The constructor `mmappable_vector(size_t n)`: default construction, then
`mmap_file(n)`. -/
def mmappable_vector_sized (tgt : Target) (be : Backend Pool Handle Heap)
    (w : World Pool Heap) (n : Nat) : VecStep Pool Handle Heap :=
  mmap_file_n tgt be (mmappable_vector_default be) w n

/-- The pointer produced by the mapping request inside `allocate` (source
lines 40 to 44): the private handle's `open_and_mmap_file` under
`bypass_file_pool`, the pool's `mmap_file` otherwise. -/
def the_pointer (tgt : Target) (be : Backend Pool Handle Heap)
    (a : mmap_allocator Handle) (w : World Pool Heap) (n : Nat) : pointer :=
  if a.bypass_file_pool then
    (be.open_and_mmap_file a.private_file a.filename a.access_mode a.offset
      (byte_length tgt n) a.map_whole_file a.allow_remap).1
  else
    (be.pool_mmap_file w.the_pool a.filename a.access_mode a.offset
      (byte_length tgt n) a.map_whole_file a.allow_remap).1

/-- Two allocators agree on path, offset, access mode and the three flag
settings. -/
def same_configuration (a b : mmap_allocator Handle) : Prop :=
  a.filename = b.filename ∧ a.offset = b.offset ∧ a.access_mode = b.access_mode ∧
    a.map_whole_file = b.map_whole_file ∧ a.allow_remap = b.allow_remap ∧
    a.bypass_file_pool = b.bypass_file_pool

/-- A vector without storage: the three pointers are null, as the constructors
`mmappable_vector()` and `mmappable_vector(A)` and `munmap_file()` leave them. -/
def no_storage (v : mmappable_vector Handle) : Prop :=
  v._M_start = NULL ∧ v._M_finish = NULL ∧ v._M_end_of_storage = NULL

/-! ## A small concrete backend, used to run the embedding -/

/-- A concrete backend for running the embedding.  The pool counts its live
acquisitions, a handle remembers the address it is mapped at, the heap counts
its live blocks.  A mapping request of length zero, with an empty file name
or with a misaligned offset fails; any other request maps at address
`4096 + offset`. -/
def demo_backend : Backend Nat (Option pointer) Nat where
  mmapped_file := none
  open_and_mmap_file := fun _ filename _ offset length _ _ =>
    if length = 0 ∨ filename = "" ∨ offset % 4096 ≠ 0 then (NULL, none)
    else (4096 + offset.toNat, some (4096 + offset.toNat))
  munmap_and_close_file := fun _ => none
  pool_mmap_file := fun pool filename _ offset length _ _ =>
    if length = 0 ∨ filename = "" ∨ offset % 4096 ≠ 0 then (NULL, pool)
    else (4096 + offset.toNat, pool + 1)
  pool_munmap_file := fun pool _ _ _ _ => pool - 1
  std_allocate := fun heap _ => (some (65536 + 64 * heap), heap + 1)
  std_deallocate := fun heap _ _ => heap - 1

/-- A 64-bit target with 4-byte elements and flag constants 1, 2 and 4. -/
def demo_target : Target :=
  { size_t_bits := 64
    sizeof_T := 4
    max_size := 2305843009213693951
    MAP_WHOLE_FILE := 1
    ALLOW_REMAP := 2
    BYPASS_FILE_POOL := 4 }

/-- An initial process state for the concrete backend: empty pool, empty heap,
silent diagnostics, no call issued yet. -/
def demo_world : World Nat Nat :=
  { the_pool := 0, heap := 0, verbosity := 0, stderr := [], calls := [] }

/-- The allocator built by `mmap_allocator<T>("data.bin", READ_ONLY, 0, 0)` on
the concrete backend. -/
def demo_allocator : mmap_allocator (Option pointer) :=
  mmap_allocator_from_file demo_target demo_backend "data.bin" access_mode.READ_ONLY 0 0

/-- An allocator state in a mapped mode with `bypass_file_pool` off. -/
def demo_pooled_allocator : mmap_allocator (Option pointer) :=
  { filename := "data.bin"
    offset := 0
    access_mode := access_mode.READ_ONLY
    map_whole_file := false
    allow_remap := false
    bypass_file_pool := false
    private_file := none }

/-- The vector built by `mmappable_vector<T>()` on the concrete backend. -/
def demo_vector : mmappable_vector (Option pointer) :=
  mmappable_vector_default demo_backend

/-! ## Frame lemmas -/

@[simp] theorem trace_line_the_pool (w : World Pool Heap) (d : Diag) :
    (trace_line w d).the_pool = w.the_pool := by
  unfold trace_line; split <;> rfl

@[simp] theorem trace_line_heap (w : World Pool Heap) (d : Diag) :
    (trace_line w d).heap = w.heap := by
  unfold trace_line; split <;> rfl

@[simp] theorem trace_line_calls (w : World Pool Heap) (d : Diag) :
    (trace_line w d).calls = w.calls := by
  unfold trace_line; split <;> rfl

@[simp] theorem trace_line_verbosity (w : World Pool Heap) (d : Diag) :
    (trace_line w d).verbosity = w.verbosity := by
  unfold trace_line; split <;> rfl

/-- An or with a non-zero operand is non-zero. -/
theorem lor_ne_zero_of_right (a b : Nat) (hb : b ≠ 0) : a ||| b ≠ 0 := by
  intro h
  apply hb
  apply Nat.eq_of_testBit_eq
  intro i
  have hi : (a ||| b).testBit i = false := by rw [h]; exact Nat.zero_testBit i
  rw [Nat.testBit_or] at hi
  rw [Nat.zero_testBit]
  cases hbi : b.testBit i
  · rfl
  · rw [hbi] at hi; simp at hi

/-- The constructor's flag expression is true for every non-zero constant. -/
theorem flag_init_ctor_eq_true (flags FLAG : Nat) (h : FLAG ≠ 0) :
    flag_init_ctor flags FLAG = true := by
  have h1 : flags ||| 1 ≠ 0 := lor_ne_zero_of_right flags 1 (by decide)
  simp [flag_init_ctor, h, h1]

/-- The flag expression of `mmap_file` is true for every non-zero constant. -/
theorem flag_init_mmap_file_eq_true (flags FLAG : Nat) (h : FLAG ≠ 0) :
    flag_init_mmap_file flags FLAG = true := by
  have h1 : flags ||| FLAG ≠ 0 := lor_ne_zero_of_right flags FLAG h
  simp [flag_init_mmap_file, h1]

/-! ## `allocate` and `deallocate` -/

/-- Pooled branch of `allocate`, unfolded. -/
theorem allocate_pooled (tgt : Target) (be : Backend Pool Handle Heap)
    (a : mmap_allocator Handle) (w : World Pool Heap) (n : Nat)
    (hm : a.access_mode ≠ access_mode.DEFAULT_STL_ALLOCATOR)
    (hb : a.bypass_file_pool = false) :
    allocate tgt be a w n =
      (let w1 := trace_line w (Diag.alloc_bytes (byte_length tgt n))
       let r := be.pool_mmap_file w.the_pool a.filename a.access_mode a.offset
         (byte_length tgt n) a.map_whole_file a.allow_remap
       let w2 := record { w1 with the_pool := r.2 } (Call.pool_mmap_file a.filename
         a.access_mode a.offset (byte_length tgt n) a.map_whole_file a.allow_remap)
       if r.1 = NULL then ⟨Outcome.thrown MappingError, a, w2⟩
       else ⟨Outcome.returned r.1, a, trace_line w2 (Diag.pointer_is r.1)⟩) := by
  simp [allocate, hm, hb]

/-- Bypass branch of `allocate`, unfolded. -/
theorem allocate_bypass (tgt : Target) (be : Backend Pool Handle Heap)
    (a : mmap_allocator Handle) (w : World Pool Heap) (n : Nat)
    (hm : a.access_mode ≠ access_mode.DEFAULT_STL_ALLOCATOR)
    (hb : a.bypass_file_pool = true) :
    allocate tgt be a w n =
      (let w1 := trace_line w (Diag.alloc_bytes (byte_length tgt n))
       let r := be.open_and_mmap_file a.private_file a.filename a.access_mode a.offset
         (byte_length tgt n) a.map_whole_file a.allow_remap
       let w2 := record w1 (Call.open_and_mmap_file a.filename
         a.access_mode a.offset (byte_length tgt n) a.map_whole_file a.allow_remap)
       if r.1 = NULL then ⟨Outcome.thrown MappingError, { a with private_file := r.2 }, w2⟩
       else ⟨Outcome.returned r.1, { a with private_file := r.2 },
         trace_line w2 (Diag.pointer_is r.1)⟩) := by
  simp [allocate, hm, hb]

/-- Heap branch of `allocate`, unfolded. -/
theorem allocate_heap (tgt : Target) (be : Backend Pool Handle Heap)
    (a : mmap_allocator Handle) (w : World Pool Heap) (n : Nat)
    (hm : a.access_mode = access_mode.DEFAULT_STL_ALLOCATOR) :
    allocate tgt be a w n =
      (let w1 := trace_line w (Diag.alloc_bytes (byte_length tgt n))
       let r := be.std_allocate w.heap n
       let w2 := record { w1 with heap := r.2 } (Call.std_allocate n)
       match r.1 with
       | some p => ⟨Outcome.returned p, a, w2⟩
       | none => ⟨Outcome.thrown Exn.bad_alloc, a, w2⟩) := by
  simp [allocate, hm]

/-- The calls issued by `allocate` in a mapped mode without
`bypass_file_pool`. -/
theorem allocate_pooled_calls (tgt : Target) (be : Backend Pool Handle Heap)
    (a : mmap_allocator Handle) (w : World Pool Heap) (n : Nat)
    (hm : a.access_mode ≠ access_mode.DEFAULT_STL_ALLOCATOR)
    (hb : a.bypass_file_pool = false) :
    (allocate tgt be a w n).world.calls =
      w.calls ++ [Call.pool_mmap_file a.filename a.access_mode a.offset
        (byte_length tgt n) a.map_whole_file a.allow_remap] := by
  rw [allocate_pooled tgt be a w n hm hb]
  simp only []
  split <;> simp [record]

/-- The calls issued by `allocate` in a mapped mode with `bypass_file_pool`. -/
theorem allocate_bypass_calls (tgt : Target) (be : Backend Pool Handle Heap)
    (a : mmap_allocator Handle) (w : World Pool Heap) (n : Nat)
    (hm : a.access_mode ≠ access_mode.DEFAULT_STL_ALLOCATOR)
    (hb : a.bypass_file_pool = true) :
    (allocate tgt be a w n).world.calls =
      w.calls ++ [Call.open_and_mmap_file a.filename a.access_mode a.offset
        (byte_length tgt n) a.map_whole_file a.allow_remap] := by
  rw [allocate_bypass tgt be a w n hm hb]
  simp only []
  split <;> simp [record]

/-- The result of `allocate` in a mapped mode, in terms of the pointer the
mapping request produced. -/
theorem allocate_mapped_result (tgt : Target) (be : Backend Pool Handle Heap)
    (a : mmap_allocator Handle) (w : World Pool Heap) (n : Nat)
    (hm : a.access_mode ≠ access_mode.DEFAULT_STL_ALLOCATOR) :
    (allocate tgt be a w n).result =
      if the_pointer tgt be a w n = NULL then Outcome.thrown MappingError
      else Outcome.returned (the_pointer tgt be a w n) := by
  by_cases hb : a.bypass_file_pool = true
  · rw [allocate_bypass tgt be a w n hm hb]
    simp only [the_pointer, hb, if_true]
    split <;> rename_i h <;> simp [h]
  · have hb2 : a.bypass_file_pool = false := by simpa using hb
    rw [allocate_pooled tgt be a w n hm hb2]
    simp only [the_pointer, hb2]
    split <;> rename_i h <;> simp [h]

/-- The two messages of `mmap_allocator_exception` are different. -/
theorem MappingError_ne_AlreadyMappedError : MappingError ≠ AlreadyMappedError := by
  decide

/-- The one call `allocate` issues in the heap mode. -/
theorem allocate_heap_calls (tgt : Target) (be : Backend Pool Handle Heap)
    (a : mmap_allocator Handle) (w : World Pool Heap) (n : Nat)
    (hm : a.access_mode = access_mode.DEFAULT_STL_ALLOCATOR) :
    (allocate tgt be a w n).world.calls = w.calls ++ [Call.std_allocate n] := by
  rw [allocate_heap tgt be a w n hm]
  simp only []
  split <;> simp [record]

/-- C2, as stated, fails when the `size_t` product wraps: with 4-byte elements
and a 64-bit `size_t`, `allocate(2^62)` on the allocator built by
`mmap_allocator<T>("data.bin", READ_ONLY, 0, 0)` issues its one request with
byte length `0`, not with `2^62 × 4`. -/
theorem C2_counterexample_product_wraps :
    (allocate demo_target demo_backend demo_allocator demo_world (2 ^ 62)).world.calls =
        [Call.open_and_mmap_file "data.bin" access_mode.READ_ONLY 0 0 true true] ∧
      (allocate demo_target demo_backend demo_allocator demo_world (2 ^ 62)).world.calls ≠
        [Call.open_and_mmap_file "data.bin" access_mode.READ_ONLY 0
          (2 ^ 62 * demo_target.sizeof_T) true true] := by
  have h : (allocate demo_target demo_backend demo_allocator demo_world (2 ^ 62)).world.calls =
      [Call.open_and_mmap_file "data.bin" access_mode.READ_ONLY 0 0 true true] := by
    simp [allocate, demo_allocator, mmap_allocator_from_file, flag_init_ctor, demo_target,
      demo_backend, demo_world, byte_length, record, NULL]
  refine ⟨h, ?_⟩
  rw [h]
  simp [demo_target]

/-- C2 (amended): for every allocator in a mapped access mode and every `n`,
`allocate(n)` issues exactly one mapping request, carrying the allocator's
path, mode, offset and the two flags, with byte length the `size_t` product
`(n × element size) mod 2^size_t_bits`, which is `n × element size` whenever
that product fits in `size_t`.  Without `bypass_file_pool` the request goes to
the pool and the private handle is untouched; with it the request goes to the
private handle and the pool is untouched.  A returned pointer is the pointer
that request returned. -/
theorem C2_allocate_issues_one_request (tgt : Target) (be : Backend Pool Handle Heap)
    (a : mmap_allocator Handle) (w : World Pool Heap) (n : Nat)
    (hm : a.access_mode ≠ access_mode.DEFAULT_STL_ALLOCATOR) :
    byte_length tgt n = (n * tgt.sizeof_T) % 2 ^ tgt.size_t_bits ∧
    (n * tgt.sizeof_T < 2 ^ tgt.size_t_bits → byte_length tgt n = n * tgt.sizeof_T) ∧
    (a.bypass_file_pool = false →
      (allocate tgt be a w n).world.calls =
          w.calls ++ [Call.pool_mmap_file a.filename a.access_mode a.offset
            (byte_length tgt n) a.map_whole_file a.allow_remap] ∧
        (allocate tgt be a w n).world.the_pool =
          (be.pool_mmap_file w.the_pool a.filename a.access_mode a.offset
            (byte_length tgt n) a.map_whole_file a.allow_remap).2 ∧
        (allocate tgt be a w n).alloc = a ∧
        ∀ p, (allocate tgt be a w n).result = Outcome.returned p →
          p = (be.pool_mmap_file w.the_pool a.filename a.access_mode a.offset
            (byte_length tgt n) a.map_whole_file a.allow_remap).1) ∧
    (a.bypass_file_pool = true →
      (allocate tgt be a w n).world.calls =
          w.calls ++ [Call.open_and_mmap_file a.filename a.access_mode a.offset
            (byte_length tgt n) a.map_whole_file a.allow_remap] ∧
        (allocate tgt be a w n).world.the_pool = w.the_pool ∧
        (allocate tgt be a w n).alloc.private_file =
          (be.open_and_mmap_file a.private_file a.filename a.access_mode a.offset
            (byte_length tgt n) a.map_whole_file a.allow_remap).2 ∧
        ∀ p, (allocate tgt be a w n).result = Outcome.returned p →
          p = (be.open_and_mmap_file a.private_file a.filename a.access_mode a.offset
            (byte_length tgt n) a.map_whole_file a.allow_remap).1) := by
  refine ⟨rfl, fun h => Nat.mod_eq_of_lt h, ?_, ?_⟩
  · intro hb
    rw [allocate_pooled tgt be a w n hm hb]
    simp only []
    split <;> simp [record]
  · intro hb
    rw [allocate_bypass tgt be a w n hm hb]
    simp only []
    split <;> simp [record]

/-- C2 run on the concrete backend: `allocate(1024)` on the allocator built
by `mmap_allocator<T>("data.bin", READ_ONLY, 0, 0)` issues the single request
of 4096 bytes to the private handle. -/
theorem C2_allocate_issues_one_request_witness :
    demo_allocator.access_mode ≠ access_mode.DEFAULT_STL_ALLOCATOR ∧
      (allocate demo_target demo_backend demo_allocator demo_world 1024).world.calls =
        [Call.open_and_mmap_file "data.bin" access_mode.READ_ONLY 0 4096 true true] :=
  ⟨by decide,
    ((C2_allocate_issues_one_request demo_target demo_backend demo_allocator demo_world 1024
      (by decide)).2.2.2 rfl).1⟩

/-- C3: in the heap mode `allocate(n)` and `deallocate(p, n)` go to
`std::allocator<T>` and to nothing else.  Each issues the single call
`std_allocate n`, respectively `std_deallocate p n`; the pool state and the
allocator, its private handle included, are the same after the call as
before, for every path, offset and flag setting. -/
theorem C3_heap_mode_touches_neither_pool_nor_handle (tgt : Target)
    (be : Backend Pool Handle Heap) (a : mmap_allocator Handle) (w : World Pool Heap)
    (n : Nat) (p : pointer)
    (hm : a.access_mode = access_mode.DEFAULT_STL_ALLOCATOR) :
    ((allocate tgt be a w n).world.calls = w.calls ++ [Call.std_allocate n] ∧
      (allocate tgt be a w n).world.heap = (be.std_allocate w.heap n).2 ∧
      (allocate tgt be a w n).result =
        (match (be.std_allocate w.heap n).1 with
          | some q => Outcome.returned q
          | none => Outcome.thrown Exn.bad_alloc) ∧
      (allocate tgt be a w n).world.the_pool = w.the_pool ∧
      (allocate tgt be a w n).alloc.private_file = a.private_file ∧
      (allocate tgt be a w n).alloc = a) ∧
    ((deallocate tgt be a w p n).world.calls = w.calls ++ [Call.std_deallocate p n] ∧
      (deallocate tgt be a w p n).world.heap = be.std_deallocate w.heap p n ∧
      (deallocate tgt be a w p n).world.the_pool = w.the_pool ∧
      (deallocate tgt be a w p n).alloc.private_file = a.private_file ∧
      (deallocate tgt be a w p n).alloc = a) := by
  constructor
  · rw [allocate_heap tgt be a w n hm]
    simp only []
    split <;> simp [record, *]
  · simp [deallocate, hm, record]

/-- C3 run on the concrete backend: the default allocator, `allocate(8)`. -/
theorem C3_heap_mode_touches_neither_pool_nor_handle_witness :
    (mmap_allocator_default demo_backend).access_mode = access_mode.DEFAULT_STL_ALLOCATOR ∧
      (allocate demo_target demo_backend (mmap_allocator_default demo_backend)
        demo_world 8).world.calls = [Call.std_allocate 8] ∧
      (deallocate demo_target demo_backend (mmap_allocator_default demo_backend)
        demo_world 65536 8).world.the_pool = 0 :=
  ⟨rfl,
    (C3_heap_mode_touches_neither_pool_nor_handle demo_target demo_backend
      (mmap_allocator_default demo_backend) demo_world 8 65536 rfl).1.1,
    (C3_heap_mode_touches_neither_pool_nor_handle demo_target demo_backend
      (mmap_allocator_default demo_backend) demo_world 8 65536 rfl).2.2.2.1⟩

/-- The allocator that `allocate` leaves behind has the path, offset, mode
and flag settings of the one it was called on. -/
theorem allocate_keeps_configuration (tgt : Target) (be : Backend Pool Handle Heap)
    (a : mmap_allocator Handle) (w : World Pool Heap) (n : Nat) :
    (allocate tgt be a w n).alloc.filename = a.filename ∧
      (allocate tgt be a w n).alloc.offset = a.offset ∧
      (allocate tgt be a w n).alloc.access_mode = a.access_mode ∧
      (allocate tgt be a w n).alloc.map_whole_file = a.map_whole_file ∧
      (allocate tgt be a w n).alloc.allow_remap = a.allow_remap ∧
      (allocate tgt be a w n).alloc.bypass_file_pool = a.bypass_file_pool := by
  by_cases hm : a.access_mode = access_mode.DEFAULT_STL_ALLOCATOR
  · rw [allocate_heap tgt be a w n hm]
    simp only []
    split <;> simp
  · by_cases hb : a.bypass_file_pool = true
    · rw [allocate_bypass tgt be a w n hm hb]
      simp only []
      split <;> simp
    · rw [allocate_pooled tgt be a w n hm (by simpa using hb)]
      simp only []
      split <;> simp

/-- C4: `deallocate` mirrors `allocate`.  Take any allocator `a`, run
`allocate(n)` in a process state `w`, and later run `deallocate(p, n)` on the
allocator that `allocate` left, in any process state `w2`.  Heap mode: both
go to `std::allocator<T>`.  Mapped mode without `bypass_file_pool`:
`allocate` issues one `the_pool.mmap_file` and `deallocate` issues exactly
one `the_pool.munmap_file` with the same path, mode, offset and the same byte
length, and leaves the private handle alone.  Mapped mode with
`bypass_file_pool`: `allocate` issues one `open_and_mmap_file` on the private
handle and `deallocate` issues exactly one `munmap_and_close_file` on it and
leaves the pool alone. -/
theorem C4_deallocate_mirrors_allocate (tgt : Target) (be : Backend Pool Handle Heap)
    (a : mmap_allocator Handle) (w w2 : World Pool Heap) (n : Nat) (p : pointer) :
    (a.access_mode = access_mode.DEFAULT_STL_ALLOCATOR →
      (allocate tgt be a w n).world.calls = w.calls ++ [Call.std_allocate n] ∧
      (deallocate tgt be (allocate tgt be a w n).alloc w2 p n).world.calls =
        w2.calls ++ [Call.std_deallocate p n]) ∧
    (a.access_mode ≠ access_mode.DEFAULT_STL_ALLOCATOR → a.bypass_file_pool = false →
      (allocate tgt be a w n).world.calls =
        w.calls ++ [Call.pool_mmap_file a.filename a.access_mode a.offset
          (byte_length tgt n) a.map_whole_file a.allow_remap] ∧
      (deallocate tgt be (allocate tgt be a w n).alloc w2 p n).world.calls =
        w2.calls ++ [Call.pool_munmap_file a.filename a.access_mode a.offset
          (byte_length tgt n)] ∧
      (deallocate tgt be (allocate tgt be a w n).alloc w2 p n).world.the_pool =
        be.pool_munmap_file w2.the_pool a.filename a.access_mode a.offset
          (byte_length tgt n) ∧
      (deallocate tgt be (allocate tgt be a w n).alloc w2 p n).alloc.private_file =
        (allocate tgt be a w n).alloc.private_file) ∧
    (a.access_mode ≠ access_mode.DEFAULT_STL_ALLOCATOR → a.bypass_file_pool = true →
      (allocate tgt be a w n).world.calls =
        w.calls ++ [Call.open_and_mmap_file a.filename a.access_mode a.offset
          (byte_length tgt n) a.map_whole_file a.allow_remap] ∧
      (deallocate tgt be (allocate tgt be a w n).alloc w2 p n).world.calls =
        w2.calls ++ [Call.munmap_and_close_file] ∧
      (deallocate tgt be (allocate tgt be a w n).alloc w2 p n).world.the_pool =
        w2.the_pool ∧
      (deallocate tgt be (allocate tgt be a w n).alloc w2 p n).alloc.private_file =
        be.munmap_and_close_file (allocate tgt be a w n).alloc.private_file) := by
  obtain ⟨h1, h2, h3, h4, h5, h6⟩ := allocate_keeps_configuration tgt be a w n
  refine ⟨?_, ?_, ?_⟩
  · intro hm
    refine ⟨allocate_heap_calls tgt be a w n hm, ?_⟩
    simp [deallocate, h3, hm, record]
  · intro hm hb
    constructor
    · rw [allocate_pooled tgt be a w n hm hb]
      simp only []
      split <;> simp [record]
    · simp [deallocate, h1, h2, h3, h6, hm, hb, record]
  · intro hm hb
    constructor
    · rw [allocate_bypass tgt be a w n hm hb]
      simp only []
      split <;> simp [record]
    · simp [deallocate, h3, h6, hm, hb, record]

/-- C4 run on the concrete backend, pooled branch: `allocate(1024)` then
`deallocate(4096, 1024)` issue `mmap_file` and `munmap_file` on the pool with
the same key and the same 4096 bytes. -/
theorem C4_deallocate_mirrors_allocate_witness :
    demo_pooled_allocator.access_mode ≠ access_mode.DEFAULT_STL_ALLOCATOR ∧
      demo_pooled_allocator.bypass_file_pool = false ∧
      (deallocate demo_target demo_backend
        (allocate demo_target demo_backend demo_pooled_allocator demo_world 1024).alloc
        (allocate demo_target demo_backend demo_pooled_allocator demo_world 1024).world
        4096 1024).world.calls =
        [Call.pool_mmap_file "data.bin" access_mode.READ_ONLY 0 4096 false false,
         Call.pool_munmap_file "data.bin" access_mode.READ_ONLY 0 4096] :=
  ⟨by decide, rfl,
    ((C4_deallocate_mirrors_allocate demo_target demo_backend demo_pooled_allocator
      demo_world
      (allocate demo_target demo_backend demo_pooled_allocator demo_world 1024).world
      1024 4096).2.1 (by decide) rfl).2.1⟩

/-- C5: in a mapped access mode, `allocate(n)` throws exactly when the mapping
request (the pool's, or the private handle's under `bypass_file_pool`)
returned `NULL`, and what it throws is the mapping error; otherwise it returns
the pointer of that request.  A returned pointer is never `NULL`. -/
theorem C5_allocate_fails_iff_request_null (tgt : Target) (be : Backend Pool Handle Heap)
    (a : mmap_allocator Handle) (w : World Pool Heap) (n : Nat)
    (hm : a.access_mode ≠ access_mode.DEFAULT_STL_ALLOCATOR) :
    ((allocate tgt be a w n).result = Outcome.thrown MappingError ↔
        the_pointer tgt be a w n = NULL) ∧
      (∀ e, (allocate tgt be a w n).result = Outcome.thrown e → e = MappingError) ∧
      (the_pointer tgt be a w n ≠ NULL →
        (allocate tgt be a w n).result = Outcome.returned (the_pointer tgt be a w n)) ∧
      (∀ p, (allocate tgt be a w n).result = Outcome.returned p →
        p = the_pointer tgt be a w n ∧ p ≠ NULL) := by
  by_cases hb : a.bypass_file_pool = true
  · rw [allocate_bypass tgt be a w n hm hb]
    simp only [the_pointer, hb, if_true]
    split
    · rename_i h
      simp [h]
    · rename_i h
      simp [h]
  · have hb2 : a.bypass_file_pool = false := by simpa using hb
    rw [allocate_pooled tgt be a w n hm hb2]
    simp only [the_pointer, hb2]
    split
    · rename_i h
      simp [h]
    · rename_i h
      simp [h]

/-- C5 run on the concrete backend: a request at the misaligned offset 1 is
refused, and `allocate` throws the mapping error. -/
theorem C5_allocate_fails_iff_request_null_witness :
    (mmap_allocator_from_file demo_target demo_backend "data.bin" access_mode.READ_ONLY 1 0 :
        mmap_allocator (Option pointer)).access_mode ≠ access_mode.DEFAULT_STL_ALLOCATOR ∧
      (allocate demo_target demo_backend
        (mmap_allocator_from_file demo_target demo_backend "data.bin" access_mode.READ_ONLY 1 0)
        demo_world 1024).result = Outcome.thrown MappingError :=
  ⟨by decide,
    (C5_allocate_fails_iff_request_null demo_target demo_backend
      (mmap_allocator_from_file demo_target demo_backend "data.bin" access_mode.READ_ONLY 1 0)
      demo_world 1024 (by decide)).1.2 (by decide)⟩

/-! ## Configuration is kept by `allocate`, `deallocate` and `reserve` -/

theorem same_configuration_refl (a : mmap_allocator Handle) : same_configuration a a :=
  ⟨rfl, rfl, rfl, rfl, rfl, rfl⟩

theorem same_configuration_trans {a b c : mmap_allocator Handle}
    (h1 : same_configuration a b) (h2 : same_configuration b c) : same_configuration a c := by
  obtain ⟨p1, p2, p3, p4, p5, p6⟩ := h1
  obtain ⟨q1, q2, q3, q4, q5, q6⟩ := h2
  exact ⟨p1.trans q1, p2.trans q2, p3.trans q3, p4.trans q4, p5.trans q5, p6.trans q6⟩

theorem allocate_same_configuration (tgt : Target) (be : Backend Pool Handle Heap)
    (a : mmap_allocator Handle) (w : World Pool Heap) (n : Nat) :
    same_configuration (allocate tgt be a w n).alloc a :=
  allocate_keeps_configuration tgt be a w n

theorem deallocate_same_configuration (tgt : Target) (be : Backend Pool Handle Heap)
    (a : mmap_allocator Handle) (w : World Pool Heap) (p : pointer) (n : Nat) :
    same_configuration (deallocate tgt be a w p n).alloc a := by
  unfold deallocate same_configuration
  simp only []
  split
  · simp
  · split <;> simp

theorem M_allocate_same_configuration (tgt : Target) (be : Backend Pool Handle Heap)
    (a : mmap_allocator Handle) (w : World Pool Heap) (n : Nat) :
    same_configuration (_M_allocate tgt be a w n).alloc a := by
  unfold _M_allocate
  split
  · exact allocate_same_configuration tgt be a w n
  · exact same_configuration_refl a

theorem M_deallocate_same_configuration (tgt : Target) (be : Backend Pool Handle Heap)
    (a : mmap_allocator Handle) (w : World Pool Heap) (p : pointer) (n : Nat) :
    same_configuration (_M_deallocate tgt be a w p n).alloc a := by
  unfold _M_deallocate
  split
  · exact deallocate_same_configuration tgt be a w p n
  · exact same_configuration_refl a

theorem reserve_same_configuration (tgt : Target) (be : Backend Pool Handle Heap)
    (v : mmappable_vector Handle) (w : World Pool Heap) (n : Nat) :
    same_configuration (reserve tgt be v w n).vec.the_allocator v.the_allocator := by
  unfold reserve
  split
  · exact same_configuration_refl _
  · split
    · simp only []
      split
      · exact M_allocate_same_configuration tgt be v.the_allocator w n
      · exact same_configuration_trans (M_deallocate_same_configuration tgt be _ _ _ _)
          (M_allocate_same_configuration tgt be v.the_allocator w n)
    · exact same_configuration_refl _

theorem mmap_file_n_same_configuration (tgt : Target) (be : Backend Pool Handle Heap)
    (v : mmappable_vector Handle) (w : World Pool Heap) (n : Nat) :
    same_configuration (mmap_file_n tgt be v w n).vec.the_allocator v.the_allocator := by
  unfold mmap_file_n
  simp only []
  split
  · exact reserve_same_configuration tgt be v w n
  · exact reserve_same_configuration tgt be v w n

/-! ## The allocator's constructors -/

/-- C1, what the code does: for non-zero flag constants, the constructor
`mmap_allocator(filename, access_mode, offset, flags)` and
`mmap_file(filename, access_mode, offset, n, flags)` store `true` in all three
settings for every value of `flags`, the value `0` included.  The bitwise
operator in the three initialisers is `|` where the test of a bit needs `&`. -/
theorem C1_settings_true_for_every_flags (tgt : Target) (be : Backend Pool Handle Heap)
    (v : mmappable_vector Handle) (w : World Pool Heap)
    (filename : String) (mode : access_mode) (offset : Int) (n flags : Nat)
    (hW : tgt.MAP_WHOLE_FILE ≠ 0) (hR : tgt.ALLOW_REMAP ≠ 0)
    (hB : tgt.BYPASS_FILE_POOL ≠ 0) (hv : size tgt v = 0) :
    ((mmap_allocator_from_file tgt be filename mode offset flags).map_whole_file = true ∧
      (mmap_allocator_from_file tgt be filename mode offset flags).allow_remap = true ∧
      (mmap_allocator_from_file tgt be filename mode offset flags).bypass_file_pool = true) ∧
    ((mmap_file tgt be v w filename mode offset n flags).vec.the_allocator.map_whole_file
        = true ∧
      (mmap_file tgt be v w filename mode offset n flags).vec.the_allocator.allow_remap
        = true ∧
      (mmap_file tgt be v w filename mode offset n flags).vec.the_allocator.bypass_file_pool
        = true) := by
  refine ⟨⟨flag_init_ctor_eq_true flags _ hW, flag_init_ctor_eq_true flags _ hR,
    flag_init_ctor_eq_true flags _ hB⟩, ?_⟩
  have hv2 : ¬ size tgt v > 0 := by omega
  unfold mmap_file
  rw [if_neg hv2]
  simp only []
  obtain ⟨_, _, _, h4, h5, h6⟩ := mmap_file_n_same_configuration tgt be
    { v with the_allocator :=
      { v.the_allocator with
        filename := filename
        offset := offset
        access_mode := mode
        map_whole_file := flag_init_mmap_file flags tgt.MAP_WHOLE_FILE
        allow_remap := flag_init_mmap_file flags tgt.ALLOW_REMAP
        bypass_file_pool := flag_init_mmap_file flags tgt.BYPASS_FILE_POOL } } w n
  rw [h4, h5, h6]
  exact ⟨flag_init_mmap_file_eq_true flags _ hW, flag_init_mmap_file_eq_true flags _ hR,
    flag_init_mmap_file_eq_true flags _ hB⟩

/-- C1 run on the concrete target (flag constants 1, 2, 4) at `flags = 0`:
the allocator built by `mmap_allocator<T>("data.bin", READ_ONLY, 0, 0)`
bypasses the pool and maps the whole file, and so does the allocator of a
vector after `mmap_file("data.bin", READ_ONLY, 0, 1024, 0)`. -/
theorem C1_settings_true_for_every_flags_witness :
    demo_target.MAP_WHOLE_FILE ≠ 0 ∧ demo_target.ALLOW_REMAP ≠ 0 ∧
      demo_target.BYPASS_FILE_POOL ≠ 0 ∧ size demo_target demo_vector = 0 ∧
      demo_allocator.map_whole_file = true ∧ demo_allocator.bypass_file_pool = true ∧
      (mmap_file demo_target demo_backend demo_vector demo_world "data.bin"
        access_mode.READ_ONLY 0 1024 0).vec.the_allocator.bypass_file_pool = true :=
  ⟨by decide, by decide, by decide, by decide,
    (C1_settings_true_for_every_flags demo_target demo_backend demo_vector demo_world
      "data.bin" access_mode.READ_ONLY 0 1024 0 (by decide) (by decide) (by decide)
      (by decide)).1.1,
    (C1_settings_true_for_every_flags demo_target demo_backend demo_vector demo_world
      "data.bin" access_mode.READ_ONLY 0 1024 0 (by decide) (by decide) (by decide)
      (by decide)).1.2.2,
    (C1_settings_true_for_every_flags demo_target demo_backend demo_vector demo_world
      "data.bin" access_mode.READ_ONLY 0 1024 0 (by decide) (by decide) (by decide)
      (by decide)).2.2.2⟩

/-- C6, as stated, fails: on the concrete backend the allocator built by
`mmap_allocator<T>("data.bin", READ_ONLY, 0, 0)` returns a pointer from
`allocate(1024)`, and a second `allocate(1024)` with no `deallocate` in
between returns a pointer again, after a second request to the private
handle. -/
theorem C6_counterexample_second_allocate_succeeds :
    (allocate demo_target demo_backend demo_allocator demo_world 1024).result =
        Outcome.returned 4096 ∧
      (allocate demo_target demo_backend
        (allocate demo_target demo_backend demo_allocator demo_world 1024).alloc
        (allocate demo_target demo_backend demo_allocator demo_world 1024).world
        1024).result = Outcome.returned 4096 ∧
      (allocate demo_target demo_backend
        (allocate demo_target demo_backend demo_allocator demo_world 1024).alloc
        (allocate demo_target demo_backend demo_allocator demo_world 1024).world
        1024).world.calls =
        [Call.open_and_mmap_file "data.bin" access_mode.READ_ONLY 0 4096 true true,
         Call.open_and_mmap_file "data.bin" access_mode.READ_ONLY 0 4096 true true] := by
  decide

/-- C6 (amended): the allocator keeps no record of a live allocation.  For
every allocator in a mapped access mode, a second `allocate` after a first
one (successful or not), with no `deallocate` in between, is served like the
first: it issues one further mapping request with the allocator's path, mode, offset and
flags (to the pool without `bypass_file_pool`, to the private handle with it),
throws the mapping error exactly when that request returned `NULL`, returns
the request's pointer otherwise, and never throws `AlreadyMappedError`. -/
theorem C6_second_allocate_issues_another_request (tgt : Target)
    (be : Backend Pool Handle Heap) (a : mmap_allocator Handle) (w : World Pool Heap)
    (n1 n2 : Nat)
    (hm : a.access_mode ≠ access_mode.DEFAULT_STL_ALLOCATOR) :
    (allocate tgt be (allocate tgt be a w n1).alloc (allocate tgt be a w n1).world n2).result
        ≠ Outcome.thrown AlreadyMappedError ∧
      (a.bypass_file_pool = false →
        (allocate tgt be (allocate tgt be a w n1).alloc
          (allocate tgt be a w n1).world n2).world.calls =
          (allocate tgt be a w n1).world.calls ++
            [Call.pool_mmap_file a.filename a.access_mode a.offset (byte_length tgt n2)
              a.map_whole_file a.allow_remap]) ∧
      (a.bypass_file_pool = true →
        (allocate tgt be (allocate tgt be a w n1).alloc
          (allocate tgt be a w n1).world n2).world.calls =
          (allocate tgt be a w n1).world.calls ++
            [Call.open_and_mmap_file a.filename a.access_mode a.offset (byte_length tgt n2)
              a.map_whole_file a.allow_remap]) ∧
      (allocate tgt be (allocate tgt be a w n1).alloc (allocate tgt be a w n1).world n2).result =
        (if the_pointer tgt be (allocate tgt be a w n1).alloc
            (allocate tgt be a w n1).world n2 = NULL
          then Outcome.thrown MappingError
          else Outcome.returned (the_pointer tgt be (allocate tgt be a w n1).alloc
            (allocate tgt be a w n1).world n2)) := by
  obtain ⟨c1, c2, c3, c4, c5, c6⟩ := allocate_keeps_configuration tgt be a w n1
  have hm2 : (allocate tgt be a w n1).alloc.access_mode ≠
      access_mode.DEFAULT_STL_ALLOCATOR := by rw [c3]; exact hm
  have hres := allocate_mapped_result tgt be (allocate tgt be a w n1).alloc
    (allocate tgt be a w n1).world n2 hm2
  refine ⟨?_, ?_, ?_, hres⟩
  · rw [hres]
    split
    · intro h
      injection h with h
      exact MappingError_ne_AlreadyMappedError h
    · intro h
      cases h
  · intro hb
    have := allocate_pooled_calls tgt be (allocate tgt be a w n1).alloc
      (allocate tgt be a w n1).world n2 hm2 (by rw [c6]; exact hb)
    rw [this, c1, c2, c3, c4, c5]
  · intro hb
    have := allocate_bypass_calls tgt be (allocate tgt be a w n1).alloc
      (allocate tgt be a w n1).world n2 hm2 (by rw [c6]; exact hb)
    rw [this, c1, c2, c3, c4, c5]

/-- C6 run on the concrete backend: after a successful `allocate(1024)` the
second `allocate(1024)` does not throw `AlreadyMappedError`. -/
theorem C6_second_allocate_issues_another_request_witness :
    demo_allocator.access_mode ≠ access_mode.DEFAULT_STL_ALLOCATOR ∧
      (allocate demo_target demo_backend demo_allocator demo_world 1024).result =
        Outcome.returned 4096 ∧
      (allocate demo_target demo_backend
        (allocate demo_target demo_backend demo_allocator demo_world 1024).alloc
        (allocate demo_target demo_backend demo_allocator demo_world 1024).world
        1024).result ≠ Outcome.thrown AlreadyMappedError :=
  ⟨by decide, by decide,
    (C6_second_allocate_issues_another_request demo_target demo_backend demo_allocator
      demo_world 1024 1024 (by decide)).1⟩

/-- C7, as stated, fails: on the concrete backend, after a successful
`allocate(1024)` the private handle of the allocator is mapped at 4096, and
the private handle of a copy of that allocator is mapped at 4096 too; it is
not the unopened handle that `mmapped_file()` constructs. -/
theorem C7_counterexample_copy_carries_open_handle :
    (allocate demo_target demo_backend demo_allocator demo_world 1024).result =
        Outcome.returned 4096 ∧
      (mmap_allocator_copy
        (allocate demo_target demo_backend demo_allocator demo_world 1024).alloc).private_file
        = some 4096 ∧
      (mmap_allocator_copy
        (allocate demo_target demo_backend demo_allocator demo_world 1024).alloc).private_file
        ≠ demo_backend.mmapped_file := by
  decide

/-- C7 (amended): the copy constructor copies every data member.  The copy
has the path, offset, access mode and flag settings of the source, and its
private handle is the copy of the source's private handle: it is mapped
exactly when the source's is. -/
theorem C7_copy_copies_every_member (a : mmap_allocator Handle) :
    (mmap_allocator_copy a).filename = a.filename ∧
      (mmap_allocator_copy a).offset = a.offset ∧
      (mmap_allocator_copy a).access_mode = a.access_mode ∧
      (mmap_allocator_copy a).map_whole_file = a.map_whole_file ∧
      (mmap_allocator_copy a).allow_remap = a.allow_remap ∧
      (mmap_allocator_copy a).bypass_file_pool = a.bypass_file_pool ∧
      (mmap_allocator_copy a).private_file = a.private_file :=
  ⟨rfl, rfl, rfl, rfl, rfl, rfl, rfl⟩

/-! ## The vector -/

/-- Pointer difference undoes pointer sum. -/
theorem ptr_diff_ptr_add (tgt : Target) (hs : 0 < tgt.sizeof_T) (p : pointer) (n : Nat) :
    ptr_diff tgt (ptr_add tgt p n) p = n := by
  unfold ptr_diff ptr_add
  rw [Nat.add_sub_cancel_left]
  exact Nat.mul_div_cancel n hs

/-- A vector without storage has size and capacity zero. -/
theorem no_storage_size_capacity (tgt : Target) (v : mmappable_vector Handle)
    (hv : no_storage v) : size tgt v = 0 ∧ capacity tgt v = 0 := by
  obtain ⟨h1, h2, h3⟩ := hv
  simp [size, capacity, ptr_diff, h1, h2, h3, NULL]

/-- When `reserve` throws, the three storage pointers are as before. -/
theorem reserve_thrown_pointers (tgt : Target) (be : Backend Pool Handle Heap)
    (v : mmappable_vector Handle) (w : World Pool Heap) (n : Nat) (e : Exn)
    (h : (reserve tgt be v w n).result = Outcome.thrown e) :
    (reserve tgt be v w n).vec._M_start = v._M_start ∧
      (reserve tgt be v w n).vec._M_finish = v._M_finish ∧
      (reserve tgt be v w n).vec._M_end_of_storage = v._M_end_of_storage := by
  unfold reserve at h ⊢
  split
  · exact ⟨rfl, rfl, rfl⟩
  · rename_i h1
    rw [if_neg h1] at h
    split
    · rename_i h2
      rw [if_pos h2] at h
      simp only [] at h ⊢
      split
      · exact ⟨rfl, rfl, rfl⟩
      · rename_i tmp heq
        rw [heq] at h
        cases h
    · exact ⟨rfl, rfl, rfl⟩

/-- When `mmap_file(n)` throws, the three storage pointers are as before. -/
theorem mmap_file_n_thrown_pointers (tgt : Target) (be : Backend Pool Handle Heap)
    (v : mmappable_vector Handle) (w : World Pool Heap) (n : Nat) (e : Exn)
    (h : (mmap_file_n tgt be v w n).result = Outcome.thrown e) :
    (mmap_file_n tgt be v w n).vec._M_start = v._M_start ∧
      (mmap_file_n tgt be v w n).vec._M_finish = v._M_finish ∧
      (mmap_file_n tgt be v w n).vec._M_end_of_storage = v._M_end_of_storage := by
  unfold mmap_file_n at h ⊢
  simp only [] at h ⊢
  split
  · rename_i e2 heq
    exact reserve_thrown_pointers tgt be v w n e2 heq
  · rename_i u heq
    rw [heq] at h
    cases h

/-- After a successful `mmap_file(n)` the size is `n`. -/
theorem mmap_file_n_returned_size (tgt : Target) (be : Backend Pool Handle Heap)
    (v : mmappable_vector Handle) (w : World Pool Heap) (n : Nat)
    (hs : 0 < tgt.sizeof_T)
    (h : (mmap_file_n tgt be v w n).result = Outcome.returned ()) :
    size tgt (mmap_file_n tgt be v w n).vec = n := by
  unfold mmap_file_n at h ⊢
  simp only [] at h ⊢
  split
  · rename_i e heq
    rw [heq] at h
    cases h
  · simp only [size, _M_set_finish]
    exact ptr_diff_ptr_add tgt hs _ n

/-- A vector that has elements refuses `mmap_file` and is left as it was. -/
theorem mmap_file_of_size_pos (tgt : Target) (be : Backend Pool Handle Heap)
    (v : mmappable_vector Handle) (w : World Pool Heap)
    (filename : String) (mode : access_mode) (offset : Int) (n flags : Nat)
    (h : 0 < size tgt v) :
    mmap_file tgt be v w filename mode offset n flags =
      ⟨Outcome.thrown AlreadyMappedError, v, w⟩ := by
  unfold mmap_file
  rw [if_pos h]

/-- On a vector without elements `mmap_file` stores its arguments in the
allocator and continues as `mmap_file(n)`. -/
theorem mmap_file_of_size_zero (tgt : Target) (be : Backend Pool Handle Heap)
    (v : mmappable_vector Handle) (w : World Pool Heap)
    (filename : String) (mode : access_mode) (offset : Int) (n flags : Nat)
    (h : size tgt v = 0) :
    mmap_file tgt be v w filename mode offset n flags =
      mmap_file_n tgt be
        { v with the_allocator :=
          { v.the_allocator with
            filename := filename
            offset := offset
            access_mode := mode
            map_whole_file := flag_init_mmap_file flags tgt.MAP_WHOLE_FILE
            allow_remap := flag_init_mmap_file flags tgt.ALLOW_REMAP
            bypass_file_pool := flag_init_mmap_file flags tgt.BYPASS_FILE_POOL } } w n := by
  unfold mmap_file
  rw [if_neg (by omega)]

/-- Above `max_size()`, `mmap_file(n)` throws `length_error` and changes
nothing. -/
theorem mmap_file_n_above_max_size (tgt : Target) (be : Backend Pool Handle Heap)
    (v : mmappable_vector Handle) (w : World Pool Heap) (n : Nat)
    (h : tgt.max_size < n) :
    mmap_file_n tgt be v w n = ⟨Outcome.thrown (Exn.length_error "vector::reserve"), v, w⟩ := by
  unfold mmap_file_n reserve
  simp [h]

/-- On a vector without storage and for `1 ≤ n ≤ max_size()`, `mmap_file(n)`
is one call of `allocate(n)` followed by the setting of the three pointers. -/
theorem mmap_file_n_no_storage (tgt : Target) (be : Backend Pool Handle Heap)
    (v : mmappable_vector Handle) (w : World Pool Heap) (n : Nat)
    (hv : no_storage v) (hn : 1 ≤ n) (hmax : n ≤ tgt.max_size) :
    mmap_file_n tgt be v w n =
      (match (allocate tgt be v.the_allocator w n).result with
        | Outcome.thrown e =>
          ⟨Outcome.thrown e,
            { v with the_allocator := (allocate tgt be v.the_allocator w n).alloc },
            (allocate tgt be v.the_allocator w n).world⟩
        | Outcome.returned p =>
          ⟨Outcome.returned (),
            { the_allocator := (allocate tgt be v.the_allocator w n).alloc
              _M_start := p
              _M_finish := ptr_add tgt p n
              _M_end_of_storage := ptr_add tgt p n },
            (allocate tgt be v.the_allocator w n).world⟩) := by
  obtain ⟨hsz, hcap⟩ := no_storage_size_capacity tgt v hv
  obtain ⟨h1, h2, h3⟩ := hv
  have hn0 : n ≠ 0 := by omega
  have hmax2 : ¬ n > tgt.max_size := by omega
  have hcap2 : capacity tgt v < n := by omega
  unfold mmap_file_n reserve
  rw [if_neg hmax2, if_pos hcap2]
  simp only [_M_allocate, _M_deallocate, h1, hsz, hn0, bne_self_eq_false, ne_eq,
    not_false_eq_true, bne_iff_ne, if_true]
  cases hr : (allocate tgt be v.the_allocator w n).result with
  | thrown e => simp
  | returned p => simp [_M_set_finish]

/-- Every run of `allocate` issues exactly one outgoing call. -/
theorem allocate_one_call (tgt : Target) (be : Backend Pool Handle Heap)
    (a : mmap_allocator Handle) (w : World Pool Heap) (n : Nat) :
    ∃ c, (allocate tgt be a w n).world.calls = w.calls ++ [c] := by
  by_cases hm : a.access_mode = access_mode.DEFAULT_STL_ALLOCATOR
  · exact ⟨_, allocate_heap_calls tgt be a w n hm⟩
  · by_cases hb : a.bypass_file_pool = true
    · exact ⟨_, allocate_bypass_calls tgt be a w n hm hb⟩
    · exact ⟨_, allocate_pooled_calls tgt be a w n hm (by simpa using hb)⟩

/-- C8, as stated, fails for a first element count of 0: on the concrete
backend `mmap_file("a.bin", READ_ONLY, 0, 0, 0)` on a fresh vector returns,
leaving size 0, and the second call `mmap_file("b.bin", READ_WRITE, 4096, 8, 0)`
returns as well instead of throwing: it issues a mapping request, the size
becomes 8 and the allocator's path, offset and mode are those of the second
call. -/
theorem C8_counterexample_first_count_zero :
    (mmap_file demo_target demo_backend demo_vector demo_world "a.bin"
        access_mode.READ_ONLY 0 0 0).result = Outcome.returned () ∧
      size demo_target (mmap_file demo_target demo_backend demo_vector demo_world "a.bin"
        access_mode.READ_ONLY 0 0 0).vec = 0 ∧
      (mmap_file demo_target demo_backend demo_vector demo_world "a.bin"
        access_mode.READ_ONLY 0 0 0).vec.the_allocator.filename = "a.bin" ∧
      (mmap_file demo_target demo_backend
        (mmap_file demo_target demo_backend demo_vector demo_world "a.bin"
          access_mode.READ_ONLY 0 0 0).vec
        (mmap_file demo_target demo_backend demo_vector demo_world "a.bin"
          access_mode.READ_ONLY 0 0 0).world
        "b.bin" access_mode.READ_WRITE 4096 8 0).result = Outcome.returned () ∧
      (mmap_file demo_target demo_backend
        (mmap_file demo_target demo_backend demo_vector demo_world "a.bin"
          access_mode.READ_ONLY 0 0 0).vec
        (mmap_file demo_target demo_backend demo_vector demo_world "a.bin"
          access_mode.READ_ONLY 0 0 0).world
        "b.bin" access_mode.READ_WRITE 4096 8 0).world.calls =
        [Call.open_and_mmap_file "b.bin" access_mode.READ_WRITE 4096 32 true true] ∧
      size demo_target (mmap_file demo_target demo_backend
        (mmap_file demo_target demo_backend demo_vector demo_world "a.bin"
          access_mode.READ_ONLY 0 0 0).vec
        (mmap_file demo_target demo_backend demo_vector demo_world "a.bin"
          access_mode.READ_ONLY 0 0 0).world
        "b.bin" access_mode.READ_WRITE 4096 8 0).vec = 8 ∧
      (mmap_file demo_target demo_backend
        (mmap_file demo_target demo_backend demo_vector demo_world "a.bin"
          access_mode.READ_ONLY 0 0 0).vec
        (mmap_file demo_target demo_backend demo_vector demo_world "a.bin"
          access_mode.READ_ONLY 0 0 0).world
        "b.bin" access_mode.READ_WRITE 4096 8 0).vec.the_allocator.filename = "b.bin" := by
  decide

/-- C8 (amended): a vector mapped with a first element count `n ≥ 1` refuses
a second `mmap_file`.  If the first call, `mmap_file(n)` or
`mmap_file(filename, access_mode, offset, n, flags)`, returned, then for every
second request the second call throws `AlreadyMappedError` and leaves the
vector (size, storage pointers, allocator) and the process state (pool, heap,
calls issued) exactly as the first call left them; the size is `n`. -/
theorem C8_second_map_is_refused (tgt : Target) (be : Backend Pool Handle Heap)
    (v : mmappable_vector Handle) (w : World Pool Heap)
    (f1 : String) (m1 : access_mode) (o1 : Int) (n1 fl1 : Nat)
    (f2 : String) (m2 : access_mode) (o2 : Int) (n2 fl2 : Nat)
    (hs : 0 < tgt.sizeof_T) (hn : 1 ≤ n1) :
    ((mmap_file_n tgt be v w n1).result = Outcome.returned () →
      size tgt (mmap_file_n tgt be v w n1).vec = n1 ∧
      mmap_file tgt be (mmap_file_n tgt be v w n1).vec (mmap_file_n tgt be v w n1).world
          f2 m2 o2 n2 fl2 =
        ⟨Outcome.thrown AlreadyMappedError, (mmap_file_n tgt be v w n1).vec,
          (mmap_file_n tgt be v w n1).world⟩) ∧
    ((mmap_file tgt be v w f1 m1 o1 n1 fl1).result = Outcome.returned () →
      size tgt (mmap_file tgt be v w f1 m1 o1 n1 fl1).vec = n1 ∧
      mmap_file tgt be (mmap_file tgt be v w f1 m1 o1 n1 fl1).vec
          (mmap_file tgt be v w f1 m1 o1 n1 fl1).world f2 m2 o2 n2 fl2 =
        ⟨Outcome.thrown AlreadyMappedError, (mmap_file tgt be v w f1 m1 o1 n1 fl1).vec,
          (mmap_file tgt be v w f1 m1 o1 n1 fl1).world⟩) := by
  constructor
  · intro hok
    have hsz := mmap_file_n_returned_size tgt be v w n1 hs hok
    exact ⟨hsz, mmap_file_of_size_pos tgt be _ _ f2 m2 o2 n2 fl2 (by omega)⟩
  · intro hok
    by_cases h0 : 0 < size tgt v
    · rw [mmap_file_of_size_pos tgt be v w f1 m1 o1 n1 fl1 h0] at hok
      cases hok
    · have hz : size tgt v = 0 := by omega
      rw [mmap_file_of_size_zero tgt be v w f1 m1 o1 n1 fl1 hz] at hok ⊢
      have hsz := mmap_file_n_returned_size tgt be _ w n1 hs hok
      exact ⟨hsz, mmap_file_of_size_pos tgt be _ _ f2 m2 o2 n2 fl2 (by omega)⟩

/-- C8 run on the concrete backend: after
`mmap_file("a.bin", READ_ONLY, 0, 1024, 0)` on a fresh vector, the call
`mmap_file("b.bin", READ_WRITE, 4096, 8, 0)` throws `AlreadyMappedError`. -/
theorem C8_second_map_is_refused_witness :
    0 < demo_target.sizeof_T ∧ 1 ≤ 1024 ∧
      (mmap_file demo_target demo_backend demo_vector demo_world "a.bin"
        access_mode.READ_ONLY 0 1024 0).result = Outcome.returned () ∧
      (mmap_file demo_target demo_backend
        (mmap_file demo_target demo_backend demo_vector demo_world "a.bin"
          access_mode.READ_ONLY 0 1024 0).vec
        (mmap_file demo_target demo_backend demo_vector demo_world "a.bin"
          access_mode.READ_ONLY 0 1024 0).world
        "b.bin" access_mode.READ_WRITE 4096 8 0).result =
        Outcome.thrown AlreadyMappedError :=
  ⟨by decide, by decide, by decide,
    congrArg VecStep.result
      ((C8_second_map_is_refused demo_target demo_backend demo_vector demo_world
        "a.bin" access_mode.READ_ONLY 0 1024 0 "b.bin" access_mode.READ_WRITE 4096 8 0
        (by decide) (by decide)).2 (by decide)).2⟩

/-- C9, as stated, fails: on the concrete backend
`mmap_file("data.bin", READ_ONLY, 1, 1024, 0)` on a fresh vector throws the
mapping error (offset 1 is misaligned), the vector still has size 0, but the
allocator's path, offset and access mode are no longer `""`, `0` and
`DEFAULT_STL_ALLOCATOR`: they are those of the failed call. -/
theorem C9_counterexample_configuration_overwritten :
    size demo_target demo_vector = 0 ∧
      demo_vector.the_allocator.filename = "" ∧
      demo_vector.the_allocator.offset = 0 ∧
      demo_vector.the_allocator.access_mode = access_mode.DEFAULT_STL_ALLOCATOR ∧
      (mmap_file demo_target demo_backend demo_vector demo_world "data.bin"
        access_mode.READ_ONLY 1 1024 0).result = Outcome.thrown MappingError ∧
      size demo_target (mmap_file demo_target demo_backend demo_vector demo_world "data.bin"
        access_mode.READ_ONLY 1 1024 0).vec = 0 ∧
      (mmap_file demo_target demo_backend demo_vector demo_world "data.bin"
        access_mode.READ_ONLY 1 1024 0).vec.the_allocator.filename = "data.bin" ∧
      (mmap_file demo_target demo_backend demo_vector demo_world "data.bin"
        access_mode.READ_ONLY 1 1024 0).vec.the_allocator.offset = 1 ∧
      (mmap_file demo_target demo_backend demo_vector demo_world "data.bin"
        access_mode.READ_ONLY 1 1024 0).vec.the_allocator.access_mode =
        access_mode.READ_ONLY := by
  decide

/-- C9 (amended): when `mmap_file(filename, access_mode, offset, n, flags)` on
a vector of size 0 throws the mapping error, the vector keeps its three
storage pointers and so its size 0, while the allocator's path, offset and
access mode are the ones passed to the failed call: they were stored before
`allocate` ran and are not restored. -/
theorem C9_failed_map_keeps_storage_and_stores_arguments (tgt : Target)
    (be : Backend Pool Handle Heap) (v : mmappable_vector Handle) (w : World Pool Heap)
    (filename : String) (mode : access_mode) (offset : Int) (n flags : Nat)
    (hv : size tgt v = 0)
    (hfail : (mmap_file tgt be v w filename mode offset n flags).result =
      Outcome.thrown MappingError) :
    (mmap_file tgt be v w filename mode offset n flags).vec._M_start = v._M_start ∧
      (mmap_file tgt be v w filename mode offset n flags).vec._M_finish = v._M_finish ∧
      (mmap_file tgt be v w filename mode offset n flags).vec._M_end_of_storage =
        v._M_end_of_storage ∧
      size tgt (mmap_file tgt be v w filename mode offset n flags).vec = 0 ∧
      (mmap_file tgt be v w filename mode offset n flags).vec.the_allocator.filename =
        filename ∧
      (mmap_file tgt be v w filename mode offset n flags).vec.the_allocator.offset =
        offset ∧
      (mmap_file tgt be v w filename mode offset n flags).vec.the_allocator.access_mode =
        mode := by
  rw [mmap_file_of_size_zero tgt be v w filename mode offset n flags hv] at hfail ⊢
  obtain ⟨p1, p2, p3⟩ := mmap_file_n_thrown_pointers tgt be _ w n _ hfail
  obtain ⟨c1, c2, c3, _, _, _⟩ := mmap_file_n_same_configuration tgt be
    { v with the_allocator :=
      { v.the_allocator with
        filename := filename
        offset := offset
        access_mode := mode
        map_whole_file := flag_init_mmap_file flags tgt.MAP_WHOLE_FILE
        allow_remap := flag_init_mmap_file flags tgt.ALLOW_REMAP
        bypass_file_pool := flag_init_mmap_file flags tgt.BYPASS_FILE_POOL } } w n
  refine ⟨p1, p2, p3, ?_, c1, c2, c3⟩
  unfold size at hv ⊢
  rw [p1, p2]
  exact hv

/-- C9 run on the concrete backend: the failed call at offset 1 leaves the
storage pointers null and the path `"data.bin"` in the allocator. -/
theorem C9_failed_map_keeps_storage_and_stores_arguments_witness :
    size demo_target demo_vector = 0 ∧
      (mmap_file demo_target demo_backend demo_vector demo_world "data.bin"
        access_mode.READ_ONLY 1 1024 0).result = Outcome.thrown MappingError ∧
      (mmap_file demo_target demo_backend demo_vector demo_world "data.bin"
        access_mode.READ_ONLY 1 1024 0).vec._M_start = demo_vector._M_start ∧
      (mmap_file demo_target demo_backend demo_vector demo_world "data.bin"
        access_mode.READ_ONLY 1 1024 0).vec.the_allocator.filename = "data.bin" :=
  ⟨by decide, by decide,
    (C9_failed_map_keeps_storage_and_stores_arguments demo_target demo_backend demo_vector
      demo_world "data.bin" access_mode.READ_ONLY 1 1024 0 (by decide) (by decide)).1,
    (C9_failed_map_keeps_storage_and_stores_arguments demo_target demo_backend demo_vector
      demo_world "data.bin" access_mode.READ_ONLY 1 1024 0 (by decide)
      (by decide)).2.2.2.2.1⟩

/-- C10, as stated, fails for `n = 0`: on the concrete backend `mmap_file(0)`
on a fresh vector returns without any call of `allocate` (no outgoing call is
issued and the heap is untouched), whereas `allocate(0)` on the same allocator
issues a call. -/
theorem C10_counterexample_count_zero :
    no_storage demo_vector ∧
      (mmap_file_n demo_target demo_backend demo_vector demo_world 0).result =
        Outcome.returned () ∧
      (mmap_file_n demo_target demo_backend demo_vector demo_world 0).world.calls = [] ∧
      (mmap_file_n demo_target demo_backend demo_vector demo_world 0).world.heap =
        demo_world.heap ∧
      (allocate demo_target demo_backend demo_vector.the_allocator demo_world 0).world.calls =
        [Call.std_allocate 0] := by
  refine ⟨⟨rfl, rfl, rfl⟩, ?_, ?_, ?_, ?_⟩ <;> decide

/-- C10 (amended): on a vector without storage and for `n ≥ 1`, a successful
`mmap_file(n)` is exactly one call of `allocate(n)`: `allocate(n)` returned a
pointer `p`, the process state and the allocator are those that this one call
left (one outgoing call was issued), `begin()` is `p`, `size() == n` and
`capacity() == n`. -/
theorem C10_map_allocates_once_and_sets_size (tgt : Target)
    (be : Backend Pool Handle Heap) (v : mmappable_vector Handle) (w : World Pool Heap)
    (n : Nat)
    (hs : 0 < tgt.sizeof_T) (hv : no_storage v) (hn : 1 ≤ n)
    (hok : (mmap_file_n tgt be v w n).result = Outcome.returned ()) :
    ∃ p, (allocate tgt be v.the_allocator w n).result = Outcome.returned p ∧
      (mmap_file_n tgt be v w n).world = (allocate tgt be v.the_allocator w n).world ∧
      (mmap_file_n tgt be v w n).vec.the_allocator =
        (allocate tgt be v.the_allocator w n).alloc ∧
      (∃ c, (mmap_file_n tgt be v w n).world.calls = w.calls ++ [c]) ∧
      (mmap_file_n tgt be v w n).vec._M_start = p ∧
      size tgt (mmap_file_n tgt be v w n).vec = n ∧
      capacity tgt (mmap_file_n tgt be v w n).vec = n := by
  by_cases hmax : n ≤ tgt.max_size
  · have hsz := mmap_file_n_returned_size tgt be v w n hs hok
    rw [mmap_file_n_no_storage tgt be v w n hv hn hmax] at hok hsz ⊢
    cases hr : (allocate tgt be v.the_allocator w n).result with
    | thrown e =>
      rw [hr] at hok
      cases hok
    | returned p =>
      rw [hr] at hsz
      refine ⟨p, rfl, rfl, rfl, allocate_one_call tgt be v.the_allocator w n, rfl, hsz, ?_⟩
      exact ptr_diff_ptr_add tgt hs p n
  · rw [mmap_file_n_above_max_size tgt be v w n (by omega)] at hok
    cases hok

/-- C10 run on the concrete backend: a vector constructed over the allocator
of `"data.bin"`, READ_ONLY, offset 0, mapped with count 1024, has
`size() == 1024`. -/
theorem C10_map_allocates_once_and_sets_size_witness :
    0 < demo_target.sizeof_T ∧ no_storage (mmappable_vector_from_alloc demo_allocator) ∧
      1 ≤ 1024 ∧
      (mmap_file_n demo_target demo_backend (mmappable_vector_from_alloc demo_allocator)
        demo_world 1024).result = Outcome.returned () ∧
      ∃ p, (allocate demo_target demo_backend
          (mmappable_vector_from_alloc demo_allocator).the_allocator demo_world 1024).result =
            Outcome.returned p ∧
        (mmap_file_n demo_target demo_backend (mmappable_vector_from_alloc demo_allocator)
          demo_world 1024).vec._M_start = p ∧
        size demo_target (mmap_file_n demo_target demo_backend
          (mmappable_vector_from_alloc demo_allocator) demo_world 1024).vec = 1024 :=
  ⟨by decide, ⟨rfl, rfl, rfl⟩, by decide, by decide,
    (C10_map_allocates_once_and_sets_size demo_target demo_backend
      (mmappable_vector_from_alloc demo_allocator) demo_world 1024 (by decide)
      ⟨rfl, rfl, rfl⟩ (by decide) (by decide)).imp
      (fun _ h => ⟨h.1, h.2.2.2.2.1, h.2.2.2.2.2.1⟩)⟩

end mmap_allocator_namespace
